import Mathlib

set_option autoImplicit false
set_option linter.unusedVariables false

/-
Shallow embedding of the bccdata relational-mapping layer (src/bccdata.go).

The registry part (DatabaseContext, EntityDescription, EntityRelationship and
their Register/ForName methods) is modelled with an explicit heap, because Go
struct values copied into a map share their map-typed fields by reference:
a Go map value is modelled as an optional heap id (`none` is a nil map), and
the heap maps ids to association lists with most-recent-binding-first lookup
(Go map insertion overwrites; our lookup takes the first, i.e. latest, binding).

The CRUD operations (Create, FindEntity, FindEntities, FindRelatedEntity) are
modelled over oracles standing for the external datastore (database/sql):
a connection or transaction is a record of functions giving the outcome of
each datastore-facing call.  Resource release (statement/cursor Close) has no
effect on returned values on the paths where the handles are non-nil; paths
on which the Go code dereferences a nil handle (Rollback on a nil transaction
after a failed Begin, the deferred Close of the nil cursor left by a failed
query, the call of a nil CreateZeroInstance) terminate in a runtime panic,
which the operation outcomes record in a panicked flag: when the flag is set
the Go function never returns, and the outcome's remaining fields document
the values that were pending at the point of the panic.
-/

namespace BccData

/-- Error values surfaced by the external datastore; an `Option DBErr` models a
Go `error`, with `none` for nil. -/
abbrev DBErr := String

/-- Values bound to SQL parameter placeholders (empty-interface arguments in Go). -/
abbrev QVal := String

/-- EntityRelationship from src/bccdata.go lines 14-19: immutable descriptor of a
many-to-many link through a join table. -/
structure EntityRelationship where
  EntityName : String
  JoinTableName : String
  ForeignKey : String
  TargetKey : String
deriving DecidableEq, Repr

/-- Go zero value of EntityRelationship: all fields empty strings. -/
def zeroEntityRelationship : EntityRelationship :=
  { EntityName := "", JoinTableName := "", ForeignKey := "", TargetKey := "" }

/-- EntityDescription from src/bccdata.go lines 21-29.  The map-typed field
`Relationships` is an optional heap id (`none` models a nil Go map); the
pointer fields `InsertStatement` (a prepared statement handle),
`CreateZeroInstance` (a function value) and `Context` are opaque handles,
with `none` modelling the nil pointer of the Go zero value. -/
structure EntityDescription where
  Name : String
  TableName : String
  PrimaryKey : String
  Relationships : Option Nat
  InsertStatement : Option Nat
  CreateZeroInstance : Option Nat
  Context : Option Nat
deriving DecidableEq, Repr

/-- Go zero value of EntityDescription: empty strings, nil map, nil pointers. -/
def zeroEntityDescription : EntityDescription :=
  { Name := "", TableName := "", PrimaryKey := "", Relationships := none,
    InsertStatement := none, CreateZeroInstance := none, Context := none }

/-- Contents of one Go `map[string]EntityRelationship`: an association list whose
lookup takes the most recent binding. -/
abbrev RelMap := List (String × EntityRelationship)

/-- DatabaseContext object (src/bccdata.go lines 9-12) as it sits on the heap:
its `EntityDescriptions` map is inlined (`none` models the nil map); the
`Database` connection handle is external and supplied separately to the
operations that use it. -/
structure DatabaseContextObj where
  EntityDescriptions : Option (List (String × EntityDescription))
deriving DecidableEq, Repr

/-- Heap of the Go program: relationship maps addressed by id (with a fresh-id
counter for `make`), and context objects addressed by pointer id. -/
structure GoState where
  relHeap : Nat → RelMap
  relNext : Nat
  ctxHeap : Nat → DatabaseContextObj

/-- Pointwise update of a heap. -/
def heapSet {α : Type} (h : Nat → α) (i : Nat) (v : α) : Nat → α :=
  fun j => if j = i then v else h j

/-- Association-list lookup with decidable string keys; `none` on a miss,
first (most recent) binding on a hit — the lookup semantics of a Go map
into which bindings were consed at the front. -/
def alookup {α : Type} : List (String × α) → String → Option α
  | [], _ => none
  | (k, v) :: rest, key => if k = key then some v else alookup rest key

/-- RegisterRelationship (src/bccdata.go lines 53-59), a method on
`*EntityDescription`: lazily `make` the Relationships map when nil (allocating
a fresh heap id and updating the caller's description value, which is returned
alongside the new state), then insert the relationship under its EntityName. -/
def RegisterRelationship (s : GoState) (d : EntityDescription)
    (r : EntityRelationship) : GoState × EntityDescription :=
  match d.Relationships with
  | none =>
      ({ s with relHeap := heapSet s.relHeap s.relNext [(r.EntityName, r)],
                relNext := s.relNext + 1 },
       { d with Relationships := some s.relNext })
  | some mid =>
      ({ s with relHeap := heapSet s.relHeap mid ((r.EntityName, r) :: s.relHeap mid) },
       d)

/-- RelationshipForName (src/bccdata.go lines 61-63): read of a possibly nil Go
map, returning the zero EntityRelationship on a nil map or a missing key.
It returns a value and leaves the state untouched (its type has no state
output), modelling that the lookup never mutates the registry. -/
def RelationshipForName (s : GoState) (d : EntityDescription)
    (entityName : String) : EntityRelationship :=
  match d.Relationships with
  | none => zeroEntityRelationship
  | some mid => (alookup (s.relHeap mid) entityName).getD zeroEntityRelationship

/-- RegisterEntityDescription (src/bccdata.go lines 37-45), a method on
`*DatabaseContext` identified by the pointer id `c`: lazily initialize the
EntityDescriptions map, stamp the context back-reference on the local copy of
the argument (Go passes the struct by value, so the caller's variable keeps
its old Context), and insert that copy under its Name, overwriting any prior
binding. -/
def RegisterEntityDescription (s : GoState) (c : Nat)
    (d : EntityDescription) : GoState :=
  let ctx := s.ctxHeap c
  let m := ctx.EntityDescriptions.getD []
  let stored := { d with Context := some c }
  { s with ctxHeap := heapSet s.ctxHeap c ⟨some ((stored.Name, stored) :: m)⟩ }

/-- EntityDescriptionForName (src/bccdata.go lines 47-49): read of a possibly
nil Go map, returning the zero EntityDescription on a nil map or a missing
key; pure lookup, no state output. -/
def EntityDescriptionForName (s : GoState) (c : Nat)
    (entityName : String) : EntityDescription :=
  match (s.ctxHeap c).EntityDescriptions with
  | none => zeroEntityDescription
  | some m => (alookup m entityName).getD zeroEntityDescription

/-- Claim C4: registering a relationship and looking it up by its target
entity name returns it unchanged; registering a description and looking it up
by name returns a description with the same table name, primary key and
relationships map, whose context back-reference is the registering context
(later registrations shadow earlier ones under the same name, so the last one
wins on lookup). -/
theorem register_lookup_roundtrip :
    (∀ (s : GoState) (d : EntityDescription) (r : EntityRelationship),
      RelationshipForName (RegisterRelationship s d r).1
        (RegisterRelationship s d r).2 r.EntityName = r)
    ∧
    (∀ (s : GoState) (c : Nat) (d : EntityDescription),
      (EntityDescriptionForName (RegisterEntityDescription s c d) c d.Name).TableName
          = d.TableName
      ∧ (EntityDescriptionForName (RegisterEntityDescription s c d) c d.Name).PrimaryKey
          = d.PrimaryKey
      ∧ (EntityDescriptionForName (RegisterEntityDescription s c d) c d.Name).Relationships
          = d.Relationships
      ∧ (EntityDescriptionForName (RegisterEntityDescription s c d) c d.Name).Context
          = some c) := by
  constructor
  · intro s d r
    cases hd : d.Relationships with
    | none =>
        simp [RegisterRelationship, RelationshipForName, hd, heapSet, alookup]
    | some mid =>
        simp [RegisterRelationship, RelationshipForName, hd, heapSet, alookup]
  · intro s c d
    simp [RegisterEntityDescription, EntityDescriptionForName, heapSet, alookup]

/-- Claim C9: both lookups return the zero value on a miss, including when the
backing map has never been initialized (is nil), and neither lookup mutates
the registry (both are pure functions of the state, returning no state). -/
theorem lookup_miss_zero_value :
    (∀ (s : GoState) (c : Nat) (entityName : String),
      (s.ctxHeap c).EntityDescriptions = none →
      EntityDescriptionForName s c entityName = zeroEntityDescription)
    ∧
    (∀ (s : GoState) (c : Nat) (entityName : String) (m : List (String × EntityDescription)),
      (s.ctxHeap c).EntityDescriptions = some m → alookup m entityName = none →
      EntityDescriptionForName s c entityName = zeroEntityDescription)
    ∧
    (∀ (s : GoState) (d : EntityDescription) (entityName : String),
      d.Relationships = none →
      RelationshipForName s d entityName = zeroEntityRelationship)
    ∧
    (∀ (s : GoState) (d : EntityDescription) (entityName : String) (mid : Nat),
      d.Relationships = some mid → alookup (s.relHeap mid) entityName = none →
      RelationshipForName s d entityName = zeroEntityRelationship) := by
  refine ⟨?_, ?_, ?_, ?_⟩
  · intro s c n h
    simp [EntityDescriptionForName, h]
  · intro s c n m hm hl
    simp [EntityDescriptionForName, hm, hl]
  · intro s d n h
    simp [RelationshipForName, h]
  · intro s d n mid hm hl
    simp [RelationshipForName, hm, hl]

/-- Empty Go state: no relationship maps allocated, a single context object at
pointer id 0 whose EntityDescriptions map is nil. -/
def emptyState : GoState :=
  { relHeap := fun _ => [], relNext := 0, ctxHeap := fun _ => ⟨none⟩ }

/-- Witness for lookup_miss_zero_value at concrete inputs. -/
theorem lookup_miss_zero_value_witness :
    EntityDescriptionForName emptyState 0 "lists" = zeroEntityDescription
    ∧ RelationshipForName emptyState zeroEntityDescription "placemarks"
        = zeroEntityRelationship :=
  ⟨lookup_miss_zero_value.1 emptyState 0 "lists" rfl,
   lookup_miss_zero_value.2.2.1 emptyState zeroEntityDescription "placemarks" rfl⟩

/-- Concrete description used to probe copy semantics of registration. -/
def cEx10_d0 : EntityDescription :=
  { Name := "D", TableName := "td", PrimaryKey := "id", Relationships := none,
    InsertStatement := none, CreateZeroInstance := none, Context := none }

/-- First relationship, registered before the description. -/
def cEx10_r1 : EntityRelationship :=
  { EntityName := "T1", JoinTableName := "j1", ForeignKey := "f1", TargetKey := "k1" }

/-- Second relationship, registered on the caller's description value after the
description was registered into the context. -/
def cEx10_r2 : EntityRelationship :=
  { EntityName := "T2", JoinTableName := "j2", ForeignKey := "f2", TargetKey := "k2" }

/-- State and description after RegisterRelationship(r1) on the fresh d0. -/
def cEx10_step1 : GoState × EntityDescription :=
  RegisterRelationship emptyState cEx10_d0 cEx10_r1

/-- State after then registering the description into context 0. -/
def cEx10_s2 : GoState :=
  RegisterEntityDescription cEx10_step1.1 0 cEx10_step1.2

/-- State after RegisterRelationship(r2) on the caller's copy of the
description, performed after the description was registered. -/
def cEx10_s3 : GoState :=
  (RegisterRelationship cEx10_s2 cEx10_step1.2 cEx10_r2).1

/-- Counterexample to claim C10: a relationship registered on the caller's
description after RegisterEntityDescription is visible through
EntityDescriptionForName, because the stored description shares the caller's
(non-nil) relationships map by reference rather than holding a deep copy;
the lookup returns r2 instead of the zero relationship the claim predicts,
and r2 was registered after the description, refuting that RegisterRelationship
must precede RegisterEntityDescription for reachability via the context. -/
theorem register_copy_cex :
    RelationshipForName cEx10_s3 (EntityDescriptionForName cEx10_s3 0 "D") "T2"
        = cEx10_r2
    ∧ cEx10_r2 ≠ zeroEntityRelationship := by
  constructor
  · rfl
  · decide

/-- Claim C10 as amended: RegisterEntityDescription stores a shallow copy —
struct fields are copied but the relationships map is shared by reference.
A RegisterRelationship on the caller's description after registration is
invisible through EntityDescriptionForName exactly when the description's
relationships map was nil at registration time (the lazy initialization then
allocates a fresh map the registry copy does not reference); when the map was
already non-nil, the mutation is visible through the registry.  Hence
RegisterRelationship must precede RegisterEntityDescription only while the
description's relationships map is still nil. -/
theorem register_shallow_copy_amended :
    (∀ (s : GoState) (c : Nat) (d : EntityDescription) (r : EntityRelationship),
      d.Relationships = none →
      RelationshipForName
          (RegisterRelationship (RegisterEntityDescription s c d) d r).1
          (EntityDescriptionForName
            (RegisterRelationship (RegisterEntityDescription s c d) d r).1 c d.Name)
          r.EntityName
        = zeroEntityRelationship)
    ∧
    (∀ (s : GoState) (c : Nat) (d : EntityDescription) (r : EntityRelationship) (mid : Nat),
      d.Relationships = some mid →
      RelationshipForName
          (RegisterRelationship (RegisterEntityDescription s c d) d r).1
          (EntityDescriptionForName
            (RegisterRelationship (RegisterEntityDescription s c d) d r).1 c d.Name)
          r.EntityName
        = r) := by
  constructor
  · intro s c d r hd
    simp [RegisterEntityDescription, RegisterRelationship, EntityDescriptionForName,
      RelationshipForName, hd, heapSet, alookup]
  · intro s c d r mid hd
    simp [RegisterEntityDescription, RegisterRelationship, EntityDescriptionForName,
      RelationshipForName, hd, heapSet, alookup]

/-- Witness for register_shallow_copy_amended at concrete inputs: with a nil
relationships map at registration, a later relationship registration on the
caller's copy is not reachable via the context. -/
theorem register_shallow_copy_amended_witness :
    RelationshipForName
        (RegisterRelationship (RegisterEntityDescription emptyState 0 cEx10_d0)
          cEx10_d0 cEx10_r1).1
        (EntityDescriptionForName
          (RegisterRelationship (RegisterEntityDescription emptyState 0 cEx10_d0)
            cEx10_d0 cEx10_r1).1 0 "D")
        "T1"
      = zeroEntityRelationship :=
  register_shallow_copy_amended.1 emptyState 0 cEx10_d0 cEx10_r1 rfl

/-
Find operations.  A result cursor (`*sql.Rows`) is modelled as
`Option (List Row)`: `none` is the nil cursor left by a failed query, and
`some pending` is a live cursor whose not-yet-consumed rows are `pending`.
The Entity capability (interface Entity, CreateZeroInstance) is a record of
the factory and the per-type ScanFromRow method; ScanFromRow is functional:
it returns the updated entity and cursor alongside the (consumed, error) pair
the Go method returns.
-/

/-- Outcome of one ScanFromRow call: the (mutated) entity, the advanced
cursor, whether a row was consumed, and the scan error. -/
structure ScanStep (E Row : Type) where
  entity : E
  rows : Option (List Row)
  ok : Bool
  err : Option DBErr
deriving DecidableEq, Repr

/-- The Entity capability of src/bccdata.go lines 27 and 31-33: the factory
`CreateZeroInstance` together with the concrete type's `ScanFromRow`. -/
structure EntityImpl (E Row : Type) where
  createZero : E
  scanFromRow : E → Option (List Row) → ScanStep E Row

/-- A scanner that honours the Row Scanner capability contract of the spec:
on an exhausted cursor it reports false with a nil error and consumes
nothing; on a non-empty cursor it consumes exactly the head row, populating
the entity from it. -/
structure GoodScanner {E Row : Type} (impl : EntityImpl E Row)
    (populate : Row → E) : Prop where
  exhausted : ∀ e, impl.scanFromRow e (some []) = ⟨e, some [], false, none⟩
  consume : ∀ e r rest,
    impl.scanFromRow e (some (r :: rest)) = ⟨populate r, some rest, true, none⟩

/-- Loop body of CreateFromRows (src/bccdata.go lines 150-159), with explicit
fuel standing in for the unbounded Go `for` loop: each iteration makes a zero
instance, scans one row into it, and appends it on success; the loop ends at
the first scan that reports no row, and the function returns the entities
collected so far together with that last scan's error. -/
def CreateFromRowsGo {E Row : Type} (impl : EntityImpl E Row) :
    Nat → Option (List Row) → List E → List E × Option (List Row) × Option DBErr
  | 0, rows, acc => (acc, rows, none)
  | fuel + 1, rows, acc =>
      let step := impl.scanFromRow impl.createZero rows
      if step.ok then CreateFromRowsGo impl fuel step.rows (acc ++ [step.entity])
      else (acc, step.rows, step.err)

/-- Fuel sufficient for any scanner that consumes at least one pending row per
successful scan: one call per pending row plus the terminating call. -/
def cursorFuel {Row : Type} : Option (List Row) → Nat
  | none => 1
  | some pending => pending.length + 1

/-- CreateFromRows (src/bccdata.go lines 145-162): drain the cursor into a
list of materialized entities. -/
def CreateFromRows {E Row : Type} (impl : EntityImpl E Row)
    (rows : Option (List Row)) : List E × Option DBErr :=
  let out := CreateFromRowsGo impl (cursorFuel rows) rows []
  (out.1, out.2.2)

/-- A datastore connection or transaction as the find operations use it:
the outcome of `Query(sql, value)` — either an error (leaving a nil cursor)
or the full list of rows the cursor will yield. -/
structure Conn (Row : Type) where
  query : String → QVal → Except DBErr (List Row)

/-- Dispatch of a query to the supplied transaction when there is one, and to
the context's connection otherwise (src/bccdata.go lines 189-193 and
235-239); the Bool records which one was used. -/
def connQuery {Row : Type} (tx : Option (Conn Row)) (db : Conn Row)
    (sql : String) (v : QVal) : Bool × Except DBErr (List Row) :=
  match tx with
  | some t => (true, t.query sql v)
  | none => (false, db.query sql v)

/-- The select statement FindEntities builds (src/bccdata.go lines 179-187):
the filter column defaults to the description's primary key when no key name
is supplied. -/
def findSelectStatement (ed : EntityDescription) (keyName : Option String) : String :=
  let columnName :=
    match keyName with
    | none => ed.PrimaryKey
    | some k => k
  "SELECT * FROM " ++ ed.TableName ++ " WHERE " ++ columnName ++ "=?"

/-- Observable outcome of a find operation: the entities and error, a trace of
the single query issued (whether it went to the supplied transaction, the SQL
text, and the bound value), and whether the operation ends in a runtime panic
instead of returning.  When panicked is true the Go function never returns
and entities/err record only the values pending at the panic. -/
structure FindOutcome (E : Type) where
  entities : List E
  err : Option DBErr
  usedTx : Bool
  sqlText : String
  sqlArg : QVal
  panicked : Bool
deriving DecidableEq, Repr

/-- FindEntities (src/bccdata.go lines 171-209): build the select, run it on
the transaction or the context connection, and on success drain the cursor
with CreateFromRows, returning the drained entities and the drain's error.
On a query error the Go function does not return: the jump to cleanup
executes `defer rows.Close()` (line 206) on the nil cursor a failed Query
leaves behind, and Close dereferences its nil receiver — a runtime panic at
return.  That branch is marked panicked, with the entities and error that
were pending (nil slice, the query error) kept for documentation. -/
def FindEntities {E Row : Type} (ed : EntityDescription) (impl : EntityImpl E Row)
    (tx : Option (Conn Row)) (db : Conn Row) (keyName : Option String)
    (value : QVal) : FindOutcome E :=
  let selectStatement := findSelectStatement ed keyName
  let q := connQuery tx db selectStatement value
  match q.2 with
  | .error e => ⟨[], some e, q.1, selectStatement, value, true⟩
  | .ok rowList =>
      let out := CreateFromRows impl (some rowList)
      ⟨out.1, out.2, q.1, selectStatement, value, false⟩

/-- Result of FindEntity: the Go function indexes `entities[0]` on the slice
FindEntities returned, so an empty result is a runtime index-out-of-range
panic rather than a returned value. -/
inductive FindOneResult (E : Type) where
  | ok (entity : E) (err : Option DBErr)
  | indexOutOfRange
deriving DecidableEq, Repr

/-- FindEntity (src/bccdata.go lines 166-169): delegate to FindEntities and
return its first element alongside the delegated error; crash with an index
error when the returned slice is empty.  When the delegated call itself
panicked the Go call aborts inside FindEntities; the pending entity slice is
nil there, so the abnormal termination is an index-free panic rather than
the index crash this result records for a returned empty slice. -/
def FindEntity {E Row : Type} (ed : EntityDescription) (impl : EntityImpl E Row)
    (tx : Option (Conn Row)) (db : Conn Row) (keyName : Option String)
    (value : QVal) : FindOneResult E :=
  let out := FindEntities ed impl tx db keyName value
  match out.entities with
  | [] => .indexOutOfRange
  | e :: _ => .ok e out.err

/-- Under the Row Scanner contract the drain loop collects exactly the pending
rows, in order, and ends with a nil error and an exhausted cursor, provided
the fuel exceeds the number of pending rows. -/
theorem createFromRowsGo_drains {E Row : Type} (impl : EntityImpl E Row)
    (populate : Row → E) (hg : GoodScanner impl populate) :
    ∀ (pending : List Row) (fuel : Nat) (acc : List E), pending.length < fuel →
      CreateFromRowsGo impl fuel (some pending) acc
        = (acc ++ pending.map populate, some [], none) := by
  intro pending
  induction pending with
  | nil =>
      intro fuel acc hf
      match fuel, hf with
      | fuel + 1, _ =>
          simp [CreateFromRowsGo, hg.exhausted]
  | cons r rest ih =>
      intro fuel acc hf
      match fuel, hf with
      | fuel + 1, hf =>
          have hr : rest.length < fuel := by
            simpa using Nat.lt_of_succ_lt_succ hf
          simp [CreateFromRowsGo, hg.consume, ih fuel (acc ++ [populate r]) hr]

/-- A well-behaved drain of a live cursor yields one entity per row, in
arrival order, with a nil error. -/
theorem createFromRows_map {E Row : Type} (impl : EntityImpl E Row)
    (populate : Row → E) (hg : GoodScanner impl populate) (pending : List Row) :
    CreateFromRows impl (some pending) = (pending.map populate, none) := by
  have h := createFromRowsGo_drains impl populate hg pending
    (pending.length + 1) [] (Nat.lt_succ_self _)
  simp [CreateFromRows, cursorFuel, h]

/-- Helper: on a successful query a contract-honouring scanner makes
FindEntities return the mapped rows with a nil error. -/
theorem findEntities_ok {E Row : Type} (ed : EntityDescription)
    (impl : EntityImpl E Row) (tx : Option (Conn Row)) (db : Conn Row)
    (keyName : Option String) (value : QVal) (populate : Row → E)
    (rowList : List Row) (hg : GoodScanner impl populate)
    (hq : (connQuery tx db (findSelectStatement ed keyName) value).2 = .ok rowList) :
    (FindEntities ed impl tx db keyName value).entities = rowList.map populate
    ∧ (FindEntities ed impl tx db keyName value).err = none := by
  simp [FindEntities, hq, createFromRows_map impl populate hg]

/-- Claim C3: with a scanner honouring the Row Scanner contract, FindEntities
on a successful query returns one materialized entity per returned row, in
cursor arrival order, with a nil error — in particular an empty sequence and
a nil error when zero rows match. -/
theorem find_entities_drain {E Row : Type} (ed : EntityDescription)
    (impl : EntityImpl E Row) (tx : Option (Conn Row)) (db : Conn Row)
    (keyName : Option String) (value : QVal) (populate : Row → E)
    (rowList : List Row) (hg : GoodScanner impl populate)
    (hq : (connQuery tx db (findSelectStatement ed keyName) value).2 = .ok rowList) :
    (FindEntities ed impl tx db keyName value).entities = rowList.map populate
    ∧ (FindEntities ed impl tx db keyName value).err = none :=
  findEntities_ok ed impl tx db keyName value populate rowList hg hq

/-- Connection whose queries return one row per registered id value; used to
instantiate the find theorems at concrete inputs. -/
def wConn : Conn Nat :=
  ⟨fun _ v => if v = "hit" then .ok [10, 11] else .ok []⟩

/-- Scanner that copies the head row into the entity; honours the Row Scanner
contract with populate equal to the identity. -/
def wImpl : EntityImpl Nat Nat :=
  ⟨0, fun e rows =>
    match rows with
    | none => ⟨e, none, false, none⟩
    | some [] => ⟨e, some [], false, none⟩
    | some (r :: rest) => ⟨r, some rest, true, none⟩⟩

/-- The concrete scanner honours the contract. -/
theorem wImpl_good : GoodScanner wImpl (fun r => r) :=
  ⟨fun _ => rfl, fun _ _ _ => rfl⟩

/-- Description used to instantiate the find and create theorems; its
non-nil factory handle 0 is denoted by wImpl, so the materialization steps of
the operations run on it without a nil-function panic. -/
def wDesc : EntityDescription :=
  { Name := "placemarks", TableName := "placemarks", PrimaryKey := "id",
    Relationships := none, InsertStatement := some 0,
    CreateZeroInstance := some 0, Context := some 0 }

/-- Witness for find_entities_drain at concrete inputs: two matching rows give
two entities in arrival order, zero matching rows give the empty sequence,
both with nil error. -/
theorem find_entities_drain_witness :
    ((FindEntities wDesc wImpl none wConn none "hit").entities = [10, 11]
      ∧ (FindEntities wDesc wImpl none wConn none "hit").err = none)
    ∧ ((FindEntities wDesc wImpl none wConn none "miss").entities = []
      ∧ (FindEntities wDesc wImpl none wConn none "miss").err = none) :=
  ⟨find_entities_drain wDesc wImpl none wConn none "hit" (fun r => r) [10, 11]
      wImpl_good rfl,
   find_entities_drain wDesc wImpl none wConn none "miss" (fun r => r) []
      wImpl_good rfl⟩

/-- Claim C2: FindEntity delegates to FindEntities and returns exactly the
first element of the returned sequence together with the delegated error;
whenever the sequence is empty — in particular whenever a well-behaved query
matches zero rows — it fails with an index-out-of-range error instead of
returning a blank entity or a not-found signal. -/
theorem find_entity_first_element {E Row : Type} (ed : EntityDescription)
    (impl : EntityImpl E Row) (tx : Option (Conn Row)) (db : Conn Row)
    (keyName : Option String) (value : QVal) :
    (∀ (e : E) (rest : List E),
      (FindEntities ed impl tx db keyName value).entities = e :: rest →
      FindEntity ed impl tx db keyName value
        = .ok e (FindEntities ed impl tx db keyName value).err)
    ∧
    ((FindEntities ed impl tx db keyName value).entities = [] →
      FindEntity ed impl tx db keyName value = .indexOutOfRange)
    ∧
    (∀ (populate : Row → E), GoodScanner impl populate →
      (connQuery tx db (findSelectStatement ed keyName) value).2 = .ok [] →
      FindEntity ed impl tx db keyName value = .indexOutOfRange) := by
  refine ⟨?_, ?_, ?_⟩
  · intro e rest h
    simp [FindEntity, h]
  · intro h
    simp [FindEntity, h]
  · intro populate hg hq
    have h := (findEntities_ok ed impl tx db keyName value populate [] hg hq).1
    simp at h
    simp [FindEntity, h]

/-- Witness for find_entity_first_element at concrete inputs: a two-row match
returns the first row's entity, a zero-row match crashes out of range. -/
theorem find_entity_first_element_witness :
    FindEntity wDesc wImpl none wConn none "hit" = .ok 10 none
    ∧ FindEntity wDesc wImpl none wConn none "miss" = .indexOutOfRange :=
  ⟨(find_entity_first_element wDesc wImpl none wConn none "hit").1 10 [11] (by decide),
   (find_entity_first_element wDesc wImpl none wConn none "miss").2.2
      (fun r => r) wImpl_good rfl⟩

/-
Create.  The external datastore calls Create makes are modelled as oracles:
`TxOracle` gives the outcome of each call issued against the active
transaction (the rebound insert statement's Exec, the transaction's Exec and
Query), and `DBOracle` gives the outcome of Database.Begin.  The result
records, besides the returned entity and error, what happened to the active
transaction at cleanup and a trace of the timestamp-update and re-select
calls, so that transaction ownership and the issued SQL are observable.
-/

/-- An sql.Result as Create uses it: only LastInsertId is called, and it can
itself fail. -/
structure InsertResultObj where
  lastInsertId : Except DBErr Int

/-- The outcomes of the datastore-facing calls Create issues against the
active transaction: `stmtExec args` is the rebound prepared insert statement's
Exec (src line 92-94), `exec sql t id` the transaction's Exec of the
timestamp update (src line 108), and `query sql id` the re-select (src
line 114), yielding the rows of the resulting cursor. -/
structure TxOracle (Row : Type) where
  stmtExec : List QVal → Except DBErr InsertResultObj
  exec : String → Int → Int → Except DBErr Unit
  query : String → Int → Except DBErr (List Row)

/-- The context's Database as Create uses it: Begin either fails or yields the
implicit transaction. -/
structure DBOracle (Row : Type) where
  begin : Except DBErr (TxOracle Row)

/-- What Create's cleanup did to the active transaction. -/
inductive TxFinal where
  | committed
  | rolledBack
  | untouched
deriving DecidableEq, Repr

/-- Observable outcome of Create: the returned entity (none while the Go
interface variable is still nil), the returned error, the transaction's fate,
traces of the timestamp update (SQL text, created time, object id) and of
the re-select (SQL text, object id) when those calls were reached, and
whether the call ends in a runtime panic instead of returning.  When
panicked is true the Go function never returns and the remaining fields
record the values pending at the panic. -/
structure CreateResult (E : Type) where
  entity : Option E
  err : Option DBErr
  final : TxFinal
  updateCall : Option (String × Int × Int)
  queryCall : Option (String × Int)
  panicked : Bool
deriving DecidableEq, Repr

/-- The cleanup label of Create (src/bccdata.go lines 125-142) as reached
with a live (non-nil) transaction: when the call owns the implicit
transaction (commitAtEnd), roll it back on a non-nil error and commit it
otherwise; a caller-supplied transaction is left untouched.  All these paths
return (the statement and cursor closes are nil-guarded on lines 126-132),
so panicked is false. -/
def createCleanup {E : Type} (commitAtEnd : Bool) (err : Option DBErr)
    (entity : Option E) (updateCall : Option (String × Int × Int))
    (queryCall : Option (String × Int)) : CreateResult E :=
  { entity := entity, err := err,
    final :=
      if commitAtEnd then (if err.isSome then .rolledBack else .committed)
      else .untouched,
    updateCall := updateCall, queryCall := queryCall, panicked := false }

/-- Steps 2-5 of Create (src/bccdata.go lines 92-123) against an active
transaction: exec the rebound insert, take LastInsertId, exec
`UPDATE table SET createdDate=? WHERE id=?` with the created time and the
new id, re-select with `SELECT * FROM table WHERE id=?`, scan the row into a
zero instance, and fall into cleanup; every error jumps to cleanup.  The
scan's ok flag does not change the outcome beyond its error: the jump on
`not scanSuccess` lands on the cleanup label that immediately follows. -/
def createBody {E Row : Type} (ed : EntityDescription) (impl : EntityImpl E Row)
    (commitAtEnd : Bool) (transaction : TxOracle Row) (createdTime : Int)
    (args : List QVal) : CreateResult E :=
  match transaction.stmtExec args with
  | .error e => createCleanup commitAtEnd (some e) none none none
  | .ok result =>
    match result.lastInsertId with
    | .error e => createCleanup commitAtEnd (some e) none none none
    | .ok objectID =>
      let tableName := ed.TableName
      let updateCreatedDateSQL :=
        "UPDATE " ++ tableName ++ " SET createdDate=? WHERE id=?"
      match transaction.exec updateCreatedDateSQL createdTime objectID with
      | .error e =>
          createCleanup commitAtEnd (some e) none
            (some (updateCreatedDateSQL, createdTime, objectID)) none
      | .ok _ =>
        let querySQL := "SELECT * FROM " ++ tableName ++ " WHERE id=?"
        match transaction.query querySQL objectID with
        | .error e =>
            createCleanup commitAtEnd (some e) none
              (some (updateCreatedDateSQL, createdTime, objectID))
              (some (querySQL, objectID))
        | .ok rowList =>
            let step := impl.scanFromRow impl.createZero (some rowList)
            createCleanup commitAtEnd step.err (some step.entity)
              (some (updateCreatedDateSQL, createdTime, objectID))
              (some (querySQL, objectID))

/-- Create (src/bccdata.go lines 67-143): with a caller-supplied transaction
run the body without taking ownership; with none, begin an implicit
transaction (owning its commit/rollback) and run the body.  When Begin
fails, the Go code has already set commitAtEnd to true (line 84, before the
error check), so the jump to cleanup reaches `transaction.Rollback()` with
a nil transaction — a nil-pointer dereference panic, not an error return:
that branch is marked panicked, with the pending error and the attempted
rollback recorded.  `createdTime` stands for the `time.Now().Unix()` sampled
during the call. -/
def Create {E Row : Type} (ed : EntityDescription) (impl : EntityImpl E Row)
    (db : DBOracle Row) (transaction : Option (TxOracle Row))
    (createdTime : Int) (args : List QVal) : CreateResult E :=
  match transaction with
  | some tx => createBody ed impl false tx createdTime args
  | none =>
    match db.begin with
    | .error e =>
        { entity := none, err := some e, final := .rolledBack,
          updateCall := none, queryCall := none, panicked := true }
    | .ok tx => createBody ed impl true tx createdTime args

/-- The transaction fate computed by createBody depends only on the ownership
flag and the final error: owned transactions are rolled back exactly on a
non-nil error and committed otherwise; unowned ones are untouched. -/
theorem createBody_final {E Row : Type} (ed : EntityDescription)
    (impl : EntityImpl E Row) (commitAtEnd : Bool) (transaction : TxOracle Row)
    (createdTime : Int) (args : List QVal) :
    (createBody ed impl commitAtEnd transaction createdTime args).final
      = if commitAtEnd then
          (if (createBody ed impl commitAtEnd transaction createdTime args).err.isSome
            then .rolledBack else .committed)
        else .untouched := by
  unfold createBody
  cases h1 : transaction.stmtExec args with
  | error e => simp [h1, createCleanup]
  | ok result =>
    cases h2 : result.lastInsertId with
    | error e => simp [h1, h2, createCleanup]
    | ok objectID =>
      cases h3 : transaction.exec
          ("UPDATE " ++ ed.TableName ++ " SET createdDate=? WHERE id=?")
          createdTime objectID with
      | error e => simp [h1, h2, h3, createCleanup]
      | ok u =>
        cases h4 : transaction.query
            ("SELECT * FROM " ++ ed.TableName ++ " WHERE id=?") objectID with
        | error e => simp [h1, h2, h3, h4, createCleanup]
        | ok rowList => simp [h1, h2, h3, h4, createCleanup]

/-- Claim C1: with a caller-supplied transaction Create never commits or rolls
it back; with none and a successful Begin, Create commits the implicit
transaction exactly when it returns a nil error and rolls it back exactly
when it returns a non-nil one. -/
theorem create_transaction_ownership {E Row : Type} (ed : EntityDescription)
    (impl : EntityImpl E Row) (db : DBOracle Row)
    (transaction : Option (TxOracle Row)) (createdTime : Int) (args : List QVal) :
    (∀ tx : TxOracle Row, transaction = some tx →
      (Create ed impl db transaction createdTime args).final = .untouched)
    ∧
    (transaction = none → ∀ tx : TxOracle Row, db.begin = .ok tx →
      (Create ed impl db transaction createdTime args).final
        = if (Create ed impl db transaction createdTime args).err.isSome
          then .rolledBack else .committed) := by
  constructor
  · intro tx htx
    subst htx
    simpa using createBody_final ed impl false tx createdTime args
  · intro hnone tx hb
    subst hnone
    simp only [Create, hb]
    exact createBody_final ed impl true tx createdTime args

/-- Transaction oracle on which every Create step succeeds: the insert yields
id 7, the update succeeds, and the re-select returns the single row 42. -/
def wTxOk : TxOracle Nat :=
  { stmtExec := fun _ => .ok ⟨.ok 7⟩,
    exec := fun _ _ _ => .ok (),
    query := fun _ _ => .ok [42] }

/-- Database oracle whose Begin yields wTxOk. -/
def wDbOk : DBOracle Nat :=
  ⟨.ok wTxOk⟩

/-- Witness for create_transaction_ownership at concrete inputs: a supplied
transaction is left untouched, and an implicit one is committed on the
error-free run. -/
theorem create_transaction_ownership_witness :
    (Create wDesc wImpl wDbOk (some wTxOk) 99 ["a"]).final = .untouched
    ∧ (Create wDesc wImpl wDbOk none 99 ["a"]).final = .committed :=
  ⟨(create_transaction_ownership wDesc wImpl wDbOk (some wTxOk) 99 ["a"]).1 wTxOk rfl,
   by
    have h := (create_transaction_ownership wDesc wImpl wDbOk none 99 ["a"]).2
      rfl wTxOk rfl
    simpa using h⟩

/-- Description whose primary-key column is not named id, probing the
hardcoded column name in Create's second statement and re-select. -/
def cEx7_ed : EntityDescription :=
  { Name := "users", TableName := "t", PrimaryKey := "uid", Relationships := none,
    InsertStatement := some 0, CreateZeroInstance := some 0, Context := some 0 }

/-- Counterexample to claim C7: for a description whose primary key is the
column uid, the timestamp update and the re-select Create issues still filter
on the literal column id — the row they identify is not the one designated by
the description's primary key. -/
theorem create_stamp_primary_key_cex :
    (Create cEx7_ed wImpl wDbOk (some wTxOk) 99 ["a"]).updateCall
        = some ("UPDATE t SET createdDate=? WHERE id=?", 99, 7)
    ∧ (Create cEx7_ed wImpl wDbOk (some wTxOk) 99 ["a"]).queryCall
        = some ("SELECT * FROM t WHERE id=?", 7)
    ∧ "UPDATE t SET createdDate=? WHERE id=?"
        ≠ "UPDATE t SET createdDate=? WHERE " ++ cEx7_ed.PrimaryKey ++ "=?"
    ∧ "SELECT * FROM t WHERE id=?"
        ≠ "SELECT * FROM t WHERE " ++ cEx7_ed.PrimaryKey ++ "=?" := by
  refine ⟨rfl, rfl, ?_, ?_⟩ <;> decide

/-- Claim C7 as amended: after the insert yields the generated key value,
Create issues `UPDATE table SET createdDate=? WHERE id=?` with the sampled
time and that value, and re-selects with `SELECT * FROM table WHERE id=?` on
that same value; both statements identify the row by the literal column id,
which coincides with the column designated by the description's primary key
exactly when that primary key is named id. -/
theorem create_stamp_reselect_by_id {E Row : Type} (ed : EntityDescription)
    (impl : EntityImpl E Row) (db : DBOracle Row) (tx : TxOracle Row)
    (createdTime : Int) (args : List QVal) (res : InsertResultObj) (oid : Int)
    (h1 : tx.stmtExec args = .ok res) (h2 : res.lastInsertId = .ok oid)
    (h3 : tx.exec ("UPDATE " ++ ed.TableName ++ " SET createdDate=? WHERE id=?")
        createdTime oid = .ok ()) :
    (Create ed impl db (some tx) createdTime args).updateCall
        = some ("UPDATE " ++ ed.TableName ++ " SET createdDate=? WHERE id=?",
            createdTime, oid)
    ∧ (Create ed impl db (some tx) createdTime args).queryCall
        = some ("SELECT * FROM " ++ ed.TableName ++ " WHERE id=?", oid)
    ∧ (ed.PrimaryKey = "id" →
        "UPDATE " ++ ed.TableName ++ " SET createdDate=? WHERE id=?"
          = "UPDATE " ++ ed.TableName ++ " SET createdDate=? WHERE "
              ++ ed.PrimaryKey ++ "=?"
        ∧ "SELECT * FROM " ++ ed.TableName ++ " WHERE id=?"
          = "SELECT * FROM " ++ ed.TableName ++ " WHERE "
              ++ ed.PrimaryKey ++ "=?") := by
  refine ⟨?_, ?_, ?_⟩
  · unfold Create createBody
    cases h4 : tx.query ("SELECT * FROM " ++ ed.TableName ++ " WHERE id=?") oid with
    | error e => simp [h1, h2, h3, h4, createCleanup]
    | ok rowList => simp [h1, h2, h3, h4, createCleanup]
  · unfold Create createBody
    cases h4 : tx.query ("SELECT * FROM " ++ ed.TableName ++ " WHERE id=?") oid with
    | error e => simp [h1, h2, h3, h4, createCleanup]
    | ok rowList => simp [h1, h2, h3, h4, createCleanup]
  · intro hid
    rw [hid]
    constructor <;> simp [String.append_assoc]

/-- Witness for create_stamp_reselect_by_id at concrete inputs. -/
theorem create_stamp_reselect_by_id_witness :
    (Create wDesc wImpl wDbOk (some wTxOk) 99 ["a"]).updateCall
        = some ("UPDATE placemarks SET createdDate=? WHERE id=?", 99, 7)
    ∧ (Create wDesc wImpl wDbOk (some wTxOk) 99 ["a"]).queryCall
        = some ("SELECT * FROM placemarks WHERE id=?", 7) := by
  have h := create_stamp_reselect_by_id wDesc wImpl wDbOk wTxOk 99 ["a"]
    ⟨.ok 7⟩ 7 rfl rfl rfl
  exact ⟨h.1, h.2.1⟩

/-- Transaction oracle whose re-select returns zero rows: insert succeeds
with id 1, the timestamp update succeeds, and the re-select cursor is empty,
so the scan reports no row with a nil error. -/
def cEx8_tx : TxOracle Nat :=
  { stmtExec := fun _ => .ok ⟨.ok 1⟩,
    exec := fun _ _ _ => .ok (),
    query := fun _ _ => .ok [] }

/-- Database oracle whose Begin yields cEx8_tx. -/
def cEx8_db : DBOracle Nat :=
  ⟨.ok cEx8_tx⟩

/-- Counterexample to claim C8: when the scanner reports no row with a nil
error during Create's final materialization, the implicitly begun transaction
is committed, not rolled back, and Create returns a nil error with the blank
entity — the no-row outcome does not take the failure path. -/
theorem create_scan_no_row_commits_cex :
    (Create wDesc wImpl cEx8_db none 5 []).final = .committed
    ∧ (Create wDesc wImpl cEx8_db none 5 []).err = none
    ∧ (Create wDesc wImpl cEx8_db none 5 []).final ≠ .rolledBack := by
  refine ⟨rfl, rfl, ?_⟩
  decide

/-- Claim C8 as amended: the cleanup of Create branches on the returned error
alone, so a scan that reports no row takes the failure path (rollback of the
implicit transaction) exactly when the Scanner attached a non-nil error; with
a nil scan error Create commits the implicit transaction and returns the
scanned (blank) entity with a nil error. -/
theorem create_scan_no_row_amended {E Row : Type} (ed : EntityDescription)
    (impl : EntityImpl E Row) (db : DBOracle Row) (tx : TxOracle Row)
    (createdTime : Int) (args : List QVal) (res : InsertResultObj) (oid : Int)
    (rowList : List Row)
    (hb : db.begin = .ok tx)
    (h1 : tx.stmtExec args = .ok res) (h2 : res.lastInsertId = .ok oid)
    (h3 : tx.exec ("UPDATE " ++ ed.TableName ++ " SET createdDate=? WHERE id=?")
        createdTime oid = .ok ())
    (h4 : tx.query ("SELECT * FROM " ++ ed.TableName ++ " WHERE id=?") oid
        = .ok rowList)
    (hscan : (impl.scanFromRow impl.createZero (some rowList)).ok = false) :
    (Create ed impl db none createdTime args).err
        = (impl.scanFromRow impl.createZero (some rowList)).err
    ∧ (Create ed impl db none createdTime args).final
        = (if (impl.scanFromRow impl.createZero (some rowList)).err.isSome
           then .rolledBack else .committed)
    ∧ (Create ed impl db none createdTime args).entity
        = some (impl.scanFromRow impl.createZero (some rowList)).entity := by
  unfold Create createBody
  simp [hb, h1, h2, h3, h4, createCleanup]

/-- Witness for create_scan_no_row_amended at concrete inputs: an empty
re-select cursor with a nil scan error ends in a commit and a nil error. -/
theorem create_scan_no_row_amended_witness :
    (Create wDesc wImpl cEx8_db none 5 []).err = none
    ∧ (Create wDesc wImpl cEx8_db none 5 []).final = .committed := by
  have h := create_scan_no_row_amended wDesc wImpl cEx8_db cEx8_tx 5 []
    ⟨.ok 1⟩ 1 [] rfl rfl rfl rfl rfl rfl
  exact ⟨h.1, by simpa using h.2.1⟩

/-- The select statement FindRelatedEntity builds (src/bccdata.go line 233)
from the resolved target table, join table, foreign key, target key and the
caller's query key. -/
def relatedSelectStatement (targetTableName joinTableName joinTableForeignKey
    targetTableKey queryKey : String) : String :=
  "SELECT " ++ targetTableName ++ ".* FROM " ++ joinTableName
    ++ " LEFT OUTER JOIN " ++ targetTableName ++ " ON " ++ joinTableName
    ++ "." ++ joinTableForeignKey ++ "=" ++ targetTableName ++ "."
    ++ targetTableKey ++ " WHERE " ++ joinTableName ++ "." ++ queryKey ++ "=?"

/-- FindRelatedEntity (src/bccdata.go lines 211-244): resolve the relationship
by target name on the source description and the target description by the
same name via the owning context (`none` when the context back-reference is a
nil pointer, which the Go code would dereference), build the join select, run
it on the transaction or the context connection, and drain the cursor with
the target description's CreateFromRows, where `targetImpl` denotes the
factory/scanner pair behind the resolved description's CreateZeroInstance
handle.  The query's error is assigned and then unconditionally overwritten
by the drain's error (the source checks no error between the Query on lines
236-238 and the reassignment on line 241), so a failed query reaches the
drain with a nil cursor.  When the resolved target description's factory
handle is nil (an unregistered target name yields the zero description), the
first loop iteration of CreateFromRows calls a nil function (line 151) — a
runtime panic after the query has already executed: the outcome's panicked
flag records this, the resolution/SQL/dispatch fields precede the panic and
are exact, and entities/err then describe only the supplied denotation's
drain, which the Go code never reaches. -/
def FindRelatedEntity {E Row : Type} (s : GoState) (ed : EntityDescription)
    (targetImpl : EntityImpl E Row) (tx : Option (Conn Row)) (db : Conn Row)
    (targetEntityName queryKey : String) (queryValue : QVal) :
    Option (FindOutcome E) :=
  match ed.Context with
  | none => none
  | some c =>
    let relationship := RelationshipForName s ed targetEntityName
    let targetEntityDescription := EntityDescriptionForName s c targetEntityName
    let selectStatement := relatedSelectStatement
      targetEntityDescription.TableName relationship.JoinTableName
      relationship.ForeignKey relationship.TargetKey queryKey
    let q := connQuery tx db selectStatement queryValue
    let rows : Option (List Row) :=
      match q.2 with
      | .error _ => none
      | .ok rowList => some rowList
    let out := CreateFromRows targetImpl rows
    some ⟨out.1, out.2, q.1, selectStatement, queryValue,
      targetEntityDescription.CreateZeroInstance.isNone⟩

/-- Claim C6: FindRelatedEntity resolves the relationship by target name on
the source description and the target description by the same name via the
owning context, builds exactly the join-select text from the resolved names,
executes it against the supplied transaction when there is one and the
context's connection otherwise, and on success materializes every returned
row, in order, through the target description's factory and scanner; the
call panics at the nil factory exactly when the resolved target description's
CreateZeroInstance handle is nil. -/
theorem find_related_join_query {E Row : Type} (s : GoState)
    (ed : EntityDescription) (c : Nat) (targetImpl : EntityImpl E Row)
    (tx : Option (Conn Row)) (db : Conn Row) (targetEntityName queryKey : String)
    (queryValue : QVal) (populate : Row → E) (rel : EntityRelationship)
    (tdesc : EntityDescription) (rowList : List Row)
    (hc : ed.Context = some c)
    (hrel : RelationshipForName s ed targetEntityName = rel)
    (htd : EntityDescriptionForName s c targetEntityName = tdesc)
    (hg : GoodScanner targetImpl populate)
    (hq : (connQuery tx db
        (relatedSelectStatement tdesc.TableName rel.JoinTableName rel.ForeignKey
          rel.TargetKey queryKey) queryValue).2 = .ok rowList) :
    FindRelatedEntity s ed targetImpl tx db targetEntityName queryKey queryValue
      = some
          { entities := rowList.map populate, err := none, usedTx := tx.isSome,
            sqlText := "SELECT " ++ tdesc.TableName ++ ".* FROM "
              ++ rel.JoinTableName ++ " LEFT OUTER JOIN " ++ tdesc.TableName
              ++ " ON " ++ rel.JoinTableName ++ "." ++ rel.ForeignKey ++ "="
              ++ tdesc.TableName ++ "." ++ rel.TargetKey ++ " WHERE "
              ++ rel.JoinTableName ++ "." ++ queryKey ++ "=?",
            sqlArg := queryValue,
            panicked := tdesc.CreateZeroInstance.isNone } := by
  cases tx with
  | none =>
      simp only [FindRelatedEntity, hc, hrel, htd]
      simp only [connQuery, relatedSelectStatement] at hq
      simp [connQuery, hq, createFromRows_map targetImpl populate hg,
        relatedSelectStatement]
  | some t =>
      simp only [FindRelatedEntity, hc, hrel, htd]
      simp only [connQuery, relatedSelectStatement] at hq
      simp [connQuery, hq, createFromRows_map targetImpl populate hg,
        relatedSelectStatement]

/-- Source description for the related-find witness, before registration. -/
def w6_src0 : EntityDescription :=
  { Name := "lists", TableName := "lists", PrimaryKey := "id",
    Relationships := none, InsertStatement := none, CreateZeroInstance := none,
    Context := none }

/-- Relationship from lists to placemarks through the join table
lists_placemarks, as in the source's example comment. -/
def w6_rel : EntityRelationship :=
  { EntityName := "placemarks", JoinTableName := "lists_placemarks",
    ForeignKey := "placemarksID", TargetKey := "id" }

/-- State and source description after registering the relationship. -/
def w6_step : GoState × EntityDescription :=
  RegisterRelationship emptyState w6_src0 w6_rel

/-- State with both the source and the target description registered into
context 0. -/
def w6_s : GoState :=
  RegisterEntityDescription (RegisterEntityDescription w6_step.1 0 w6_step.2) 0 wDesc

/-- Connection returning two placemark rows for the probed list id. -/
def w6_conn : Conn Nat :=
  ⟨fun _ v => if v = "1" then .ok [10, 11] else .ok []⟩

/-- Witness for find_related_join_query at concrete inputs: the registered
lists-to-placemarks relationship yields the join select of the source's
example comment and both placemark rows, in order. -/
theorem find_related_join_query_witness :
    FindRelatedEntity w6_s (EntityDescriptionForName w6_s 0 "lists") wImpl
        (some w6_conn) w6_conn "placemarks" "listsID" "1"
      = some
          { entities := [10, 11], err := none, usedTx := true,
            sqlText := "SELECT placemarks.* FROM lists_placemarks LEFT OUTER JOIN placemarks ON lists_placemarks.placemarksID=placemarks.id WHERE lists_placemarks.listsID=?",
            sqlArg := "1", panicked := false } := by
  have h := find_related_join_query w6_s (EntityDescriptionForName w6_s 0 "lists")
    0 wImpl (some w6_conn) w6_conn "placemarks" "listsID" "1" (fun r => r)
    w6_rel wDesc [10, 11] rfl rfl rfl wImpl_good rfl
  simpa using h

/-- Connection on which every query fails. -/
def cEx5_conn : Conn Nat :=
  ⟨fun _ _ => .error "boom"⟩

/-- Source description for the error-propagation counterexample, before
registration; its factory handle is non-nil. -/
def cEx5_src0 : EntityDescription :=
  { Name := "lists", TableName := "lists", PrimaryKey := "id",
    Relationships := none, InsertStatement := some 1,
    CreateZeroInstance := some 1, Context := none }

/-- Relationship from lists to placemarks registered on the source. -/
def cEx5_rel : EntityRelationship :=
  { EntityName := "placemarks", JoinTableName := "lists_placemarks",
    ForeignKey := "placemarksID", TargetKey := "id" }

/-- Registered target description with a non-nil factory handle, denoted by
wImpl; wImpl tolerates a nil cursor by reporting no row with a nil error,
which is a legal Row Scanner implementation, so the traced Go execution
returns instead of panicking. -/
def cEx5_target : EntityDescription :=
  { Name := "placemarks", TableName := "placemarks", PrimaryKey := "id",
    Relationships := none, InsertStatement := some 0,
    CreateZeroInstance := some 0, Context := some 0 }

/-- State and source description after registering the relationship. -/
def cEx5_step : GoState × EntityDescription :=
  RegisterRelationship emptyState cEx5_src0 cEx5_rel

/-- State with the source and the target description registered into
context 0. -/
def cEx5_s : GoState :=
  RegisterEntityDescription (RegisterEntityDescription cEx5_step.1 0 cEx5_step.2)
    0 cEx5_target

/-- Counterexample to claim C5: with the relationship and the target
description registered (non-nil factory, nil-cursor-tolerant scanner),
FindRelatedEntity runs its query on a connection whose every query fails
with the error boom, yet returns — without panicking — a nil error and no
entities: the datastore error is overwritten by the drain's result instead
of being returned to the caller. -/
theorem find_related_error_replaced_cex :
    cEx5_conn.query "SELECT placemarks.* FROM lists_placemarks LEFT OUTER JOIN placemarks ON lists_placemarks.placemarksID=placemarks.id WHERE lists_placemarks.listsID=?" "1"
      = .error "boom"
    ∧ FindRelatedEntity cEx5_s (EntityDescriptionForName cEx5_s 0 "lists") wImpl
        (some cEx5_conn) cEx5_conn "placemarks" "listsID" "1"
      = some
          { entities := [], err := none, usedTx := true,
            sqlText := "SELECT placemarks.* FROM lists_placemarks LEFT OUTER JOIN placemarks ON lists_placemarks.placemarksID=placemarks.id WHERE lists_placemarks.listsID=?",
            sqlArg := "1", panicked := false } := by
  exact ⟨rfl, rfl⟩

/-- Claim C5 as amended: the errors of Create's steps 2-5 (insert exec,
LastInsertId, timestamp update, re-select, row scan) are returned unmodified
as Create's error result on both the caller-supplied and the implicit
transaction path (those cleanup paths hold a live transaction and nil-guard
their closes, and never panic), and FindEntities returns its row-scan drain's
error unmodified and passes it to FindEntity whenever at least one row came
back.  The remaining datastore-facing errors are not returned at all: a
failed transaction Begin in Create panics at the rollback of the nil
transaction (ownership was claimed before the error check), a failed query
in FindEntities panics at the deferred close of the nil cursor, and
FindRelatedEntity unconditionally overwrites the query's error with the
nil-cursor drain's error, so the query's own error never reaches the caller
there. -/
theorem error_propagation_amended :
    (∀ (E Row : Type) (ed : EntityDescription) (impl : EntityImpl E Row)
        (db : DBOracle Row) (createdTime : Int) (args : List QVal) (e : DBErr),
      db.begin = .error e →
      (Create ed impl db none createdTime args).panicked = true)
    ∧
    (∀ (E Row : Type) (ed : EntityDescription) (impl : EntityImpl E Row)
        (db : DBOracle Row) (tx : TxOracle Row) (createdTime : Int)
        (args : List QVal),
      Create ed impl db (some tx) createdTime args
        = createBody ed impl false tx createdTime args
      ∧ (db.begin = .ok tx →
          Create ed impl db none createdTime args
            = createBody ed impl true tx createdTime args))
    ∧
    (∀ (E Row : Type) (ed : EntityDescription) (impl : EntityImpl E Row)
        (commitAtEnd : Bool) (tx : TxOracle Row) (createdTime : Int)
        (args : List QVal),
      (createBody ed impl commitAtEnd tx createdTime args).panicked = false)
    ∧
    (∀ (E Row : Type) (ed : EntityDescription) (impl : EntityImpl E Row)
        (commitAtEnd : Bool) (tx : TxOracle Row) (createdTime : Int)
        (args : List QVal) (e : DBErr),
      tx.stmtExec args = .error e →
      (createBody ed impl commitAtEnd tx createdTime args).err = some e)
    ∧
    (∀ (E Row : Type) (ed : EntityDescription) (impl : EntityImpl E Row)
        (commitAtEnd : Bool) (tx : TxOracle Row) (createdTime : Int)
        (args : List QVal) (res : InsertResultObj) (e : DBErr),
      tx.stmtExec args = .ok res → res.lastInsertId = .error e →
      (createBody ed impl commitAtEnd tx createdTime args).err = some e)
    ∧
    (∀ (E Row : Type) (ed : EntityDescription) (impl : EntityImpl E Row)
        (commitAtEnd : Bool) (tx : TxOracle Row) (createdTime : Int)
        (args : List QVal) (res : InsertResultObj) (oid : Int) (e : DBErr),
      tx.stmtExec args = .ok res → res.lastInsertId = .ok oid →
      tx.exec ("UPDATE " ++ ed.TableName ++ " SET createdDate=? WHERE id=?")
        createdTime oid = .error e →
      (createBody ed impl commitAtEnd tx createdTime args).err = some e)
    ∧
    (∀ (E Row : Type) (ed : EntityDescription) (impl : EntityImpl E Row)
        (commitAtEnd : Bool) (tx : TxOracle Row) (createdTime : Int)
        (args : List QVal) (res : InsertResultObj) (oid : Int) (e : DBErr),
      tx.stmtExec args = .ok res → res.lastInsertId = .ok oid →
      tx.exec ("UPDATE " ++ ed.TableName ++ " SET createdDate=? WHERE id=?")
        createdTime oid = .ok () →
      tx.query ("SELECT * FROM " ++ ed.TableName ++ " WHERE id=?") oid = .error e →
      (createBody ed impl commitAtEnd tx createdTime args).err = some e)
    ∧
    (∀ (E Row : Type) (ed : EntityDescription) (impl : EntityImpl E Row)
        (commitAtEnd : Bool) (tx : TxOracle Row) (createdTime : Int)
        (args : List QVal) (res : InsertResultObj) (oid : Int) (rowList : List Row),
      tx.stmtExec args = .ok res → res.lastInsertId = .ok oid →
      tx.exec ("UPDATE " ++ ed.TableName ++ " SET createdDate=? WHERE id=?")
        createdTime oid = .ok () →
      tx.query ("SELECT * FROM " ++ ed.TableName ++ " WHERE id=?") oid
        = .ok rowList →
      (createBody ed impl commitAtEnd tx createdTime args).err
        = (impl.scanFromRow impl.createZero (some rowList)).err)
    ∧
    (∀ (E Row : Type) (ed : EntityDescription) (impl : EntityImpl E Row)
        (tx : Option (Conn Row)) (db : Conn Row) (keyName : Option String)
        (value : QVal) (e : DBErr),
      (connQuery tx db (findSelectStatement ed keyName) value).2 = .error e →
      (FindEntities ed impl tx db keyName value).panicked = true)
    ∧
    (∀ (E Row : Type) (ed : EntityDescription) (impl : EntityImpl E Row)
        (tx : Option (Conn Row)) (db : Conn Row) (keyName : Option String)
        (value : QVal) (rowList : List Row),
      (connQuery tx db (findSelectStatement ed keyName) value).2 = .ok rowList →
      (FindEntities ed impl tx db keyName value).err
        = (CreateFromRows impl (some rowList)).2
      ∧ (FindEntities ed impl tx db keyName value).panicked = false)
    ∧
    (∀ (E Row : Type) (ed : EntityDescription) (impl : EntityImpl E Row)
        (tx : Option (Conn Row)) (db : Conn Row) (keyName : Option String)
        (value : QVal) (en : E) (rest : List E),
      (FindEntities ed impl tx db keyName value).entities = en :: rest →
      FindEntity ed impl tx db keyName value
        = .ok en (FindEntities ed impl tx db keyName value).err)
    ∧
    (∀ (E Row : Type) (s : GoState) (ed : EntityDescription) (c : Nat)
        (targetImpl : EntityImpl E Row) (tx : Option (Conn Row)) (db : Conn Row)
        (targetEntityName queryKey : String) (queryValue : QVal) (e : DBErr),
      ed.Context = some c →
      (connQuery tx db
          (relatedSelectStatement
            (EntityDescriptionForName s c targetEntityName).TableName
            (RelationshipForName s ed targetEntityName).JoinTableName
            (RelationshipForName s ed targetEntityName).ForeignKey
            (RelationshipForName s ed targetEntityName).TargetKey queryKey)
          queryValue).2 = .error e →
      Option.map FindOutcome.err
          (FindRelatedEntity s ed targetImpl tx db targetEntityName queryKey
            queryValue)
        = some (CreateFromRows targetImpl (none : Option (List Row))).2) := by
  refine ⟨?_, ?_, ?_, ?_, ?_, ?_, ?_, ?_, ?_, ?_, ?_, ?_⟩
  · intro E Row ed impl db ct args e hb
    simp [Create, hb]
  · intro E Row ed impl db tx ct args
    exact ⟨rfl, fun hb => by simp [Create, hb]⟩
  · intro E Row ed impl b tx ct args
    unfold createBody
    cases h1 : tx.stmtExec args with
    | error e => simp [h1, createCleanup]
    | ok result =>
      cases h2 : result.lastInsertId with
      | error e => simp [h1, h2, createCleanup]
      | ok objectID =>
        cases h3 : tx.exec
            ("UPDATE " ++ ed.TableName ++ " SET createdDate=? WHERE id=?")
            ct objectID with
        | error e => simp [h1, h2, h3, createCleanup]
        | ok u =>
          cases h4 : tx.query
              ("SELECT * FROM " ++ ed.TableName ++ " WHERE id=?") objectID with
          | error e => simp [h1, h2, h3, h4, createCleanup]
          | ok rowList => simp [h1, h2, h3, h4, createCleanup]
  · intro E Row ed impl b tx ct args e h1
    unfold createBody
    simp [h1, createCleanup]
  · intro E Row ed impl b tx ct args res e h1 h2
    unfold createBody
    simp [h1, h2, createCleanup]
  · intro E Row ed impl b tx ct args res oid e h1 h2 h3
    unfold createBody
    simp [h1, h2, h3, createCleanup]
  · intro E Row ed impl b tx ct args res oid e h1 h2 h3 h4
    unfold createBody
    simp [h1, h2, h3, h4, createCleanup]
  · intro E Row ed impl b tx ct args res oid rowList h1 h2 h3 h4
    unfold createBody
    simp [h1, h2, h3, h4, createCleanup]
  · intro E Row ed impl tx db keyName value e hq
    simp [FindEntities, hq]
  · intro E Row ed impl tx db keyName value rowList hq
    constructor <;> simp [FindEntities, hq]
  · intro E Row ed impl tx db keyName value en rest h
    simp [FindEntity, h]
  · intro E Row s ed c targetImpl tx db targetEntityName queryKey queryValue e
      hc hq
    cases tx with
    | none =>
        simp only [FindRelatedEntity, hc]
        simp only [connQuery, relatedSelectStatement] at hq
        simp [connQuery, hq, relatedSelectStatement]
    | some t =>
        simp only [FindRelatedEntity, hc]
        simp only [connQuery, relatedSelectStatement] at hq
        simp [connQuery, hq, relatedSelectStatement]

/-- Database oracle whose Begin fails. -/
def cEx5_dbFail : DBOracle Nat :=
  ⟨.error "down"⟩

/-- Transaction oracle whose insert exec fails. -/
def cEx5_txInsFail : TxOracle Nat :=
  { stmtExec := fun _ => .error "ins",
    exec := fun _ _ _ => .ok (),
    query := fun _ _ => .ok [] }

/-- Witness for error_propagation_amended at concrete inputs: a failing Begin
makes Create panic, a failing insert exec surfaces as the body's returned
error, and a failing query makes FindEntities panic. -/
theorem error_propagation_amended_witness :
    (Create wDesc wImpl cEx5_dbFail none 0 []).panicked = true
    ∧ (createBody wDesc wImpl true cEx5_txInsFail 0 []).err = some "ins"
    ∧ (FindEntities wDesc wImpl none cEx5_conn none "v").panicked = true :=
  ⟨error_propagation_amended.1 Nat Nat wDesc wImpl cEx5_dbFail 0 [] "down" rfl,
   error_propagation_amended.2.2.2.1 Nat Nat wDesc wImpl true cEx5_txInsFail
      0 [] "ins" rfl,
   error_propagation_amended.2.2.2.2.2.2.2.2.1 Nat Nat wDesc wImpl none
      cEx5_conn none "v" "boom" rfl⟩

end BccData
